import Mathlib

/-!
Verification of the pipolars extraction layer.

The definitions below shallowly embed `src/pipolars/extraction/points.py`
and the batch-extraction scripts under `examples/`.  The vendor SDK
(`OSIsoft.AF`) is an external collaborator whose observable behaviour is
modelled from the specification; such definitions carry a doc comment
starting with `Modelled from the spec:`, as do the definitions standing in
for repository modules (`pipolars.core.types`, `pipolars.core.config`,
`pipolars.api.client`) whose sources are not present and are pinned only by
their unit tests.  Python floats are modelled as rationals: none of the
modelled code paths perform floating-point arithmetic, they only pass
values through or coerce exactly representable integers.  Instants are
modelled as integers.
-/

namespace Pipolars

/-- Data quality of a converted value (`pipolars.core.types.DataQuality`):
GOOD, BAD or SUBSTITUTED. -/
inductive DataQuality where
  | GOOD
  | BAD
  | SUBSTITUTED
deriving DecidableEq, Repr

/-- A plain Python runtime value as seen by the extraction layer. -/
inductive PyVal where
  | int (n : Int)
  | float (q : ℚ)
  | str (s : String)
  | bool (b : Bool)
  | none
deriving DecidableEq, Repr

/-- The shape of `af_value.Value` as `_convert_value` (points.py 133-146)
discriminates it with `hasattr`:
* `digital name` — the value carries a symbolic/digital state
  (`hasattr(value, "Name")` holds); `name` is `str(value.Name)`;
* `net asFloat toStringRepr` — a wrapped .NET object without `Name` but with
  `ToString`; `asFloat` is `some q` when Python `float(value)` succeeds and
  `none` when it raises `ValueError`/`TypeError`; `toStringRepr` is
  `str(value.ToString())`;
* `plain v` — a plain Python value carrying neither attribute (the interop
  layer already converted it). -/
inductive RawVal where
  | digital (name : String)
  | net (asFloat : Option ℚ) (toStringRepr : String)
  | plain (v : PyVal)
deriving DecidableEq, Repr

/-- An `AFValue` from the vendor SDK as consumed by `_convert_value`
(points.py 124-159): `timestamp` models `af_value.Timestamp.LocalTime`,
`value` is `af_value.Value`, `isGood` models `af_value.IsGood` as an
`Option Bool` because the code tests `IsGood is False` (only a genuine
`False` triggers it), `hasSubstituted` and `substituted` model
`hasattr(af_value, "Substituted")` and the truthiness of
`af_value.Substituted`. -/
structure AFValue where
  timestamp : Int
  value : RawVal
  isGood : Option Bool
  hasSubstituted : Bool
  substituted : Bool
deriving DecidableEq, Repr

/-- A converted sample (`pipolars.core.types.PIValue`). -/
structure PIValue where
  timestamp : Int
  value : PyVal
  quality : DataQuality
deriving DecidableEq, Repr

/-- The value branch of `PIPointExtractor._convert_value` (points.py
136-146): digital states become the state name, .NET objects are coerced to
float with a `ToString` fallback, anything else is left untouched. -/
def convertRawVal : RawVal → PyVal
  | .digital n => .str n
  | .net (some q) _ => .float q
  | .net Option.none s => .str s
  | .plain v => v

/-- The quality branch of `PIPointExtractor._convert_value` (points.py
148-153): GOOD by default, BAD when `IsGood is False`, SUBSTITUTED when not
bad but `Substituted` exists and is truthy. -/
def convertQuality (av : AFValue) : DataQuality :=
  if av.isGood = some false then .BAD
  else if av.hasSubstituted && av.substituted then .SUBSTITUTED
  else .GOOD

/-- `PIPointExtractor._convert_value` (points.py 124-159). -/
def convertValue (av : AFValue) : PIValue :=
  { timestamp := av.timestamp
    value := convertRawVal av.value
    quality := convertQuality av }

/-- Python `str(value)` on a plain value. -/
def pyStr : PyVal → String
  | .int n => toString n
  | .float q => toString q
  | .str s => s
  | .bool b => if b then "True" else "False"
  | .none => "None"

/-- Python `float(value)` on a plain value, `none` when it raises.
Numeric-string parsing is approximated by integer literals; no theorem
below depends on the string case. -/
def pyFloatCoerce : PyVal → Option ℚ
  | .int n => some (n : ℚ)
  | .float q => some q
  | .bool b => some (if b then 1 else 0)
  | .str s => (s.trim.toInt?).map (fun n => (n : ℚ))
  | .none => Option.none

/-- Whether the raw value carries a symbolic/digital state. -/
def rawHasName : RawVal → Bool
  | .digital _ => true
  | _ => false

/-- The digital state's name (meaningful only when `rawHasName` holds). -/
def rawName : RawVal → String
  | .digital n => n
  | _ => ""

/-- Python `float(value)` on the raw value, `none` when it raises. -/
def rawFloatCoerce : RawVal → Option ℚ
  | .digital _ => Option.none
  | .net f _ => f
  | .plain v => pyFloatCoerce v

/-- Python string representation of the raw value. -/
def rawStrRepr : RawVal → String
  | .digital n => n
  | .net _ s => s
  | .plain v => pyStr v

/-- The value-normalization rule exactly as the spec words it ("if the raw
value carries a symbolic/digital state, the result value is the state's
name (string); otherwise attempt numeric coercion, falling back to string
representation on failure").  Written from the spec's words, to be compared
with `convertRawVal`, which is written from the source. -/
def claimConvertRawVal (r : RawVal) : PyVal :=
  if rawHasName r then .str (rawName r)
  else
    match rawFloatCoerce r with
    | some q => .float q
    | Option.none => .str (rawStrRepr r)

/-- Semantic point type (`pipolars.core.types.PointType`). -/
inductive PointType where
  | FLOAT16
  | FLOAT32
  | FLOAT64
  | INT16
  | INT32
  | DIGITAL
  | TIMESTAMP
  | STRING
  | BLOB
deriving DecidableEq, Repr

/-- The `point_type_map` dictionary in `PIPointExtractor.get_point_config`
(points.py 184-195), as a partial lookup. -/
def point_type_map (s : String) : Option PointType :=
  if s = "Float16" then some .FLOAT16
  else if s = "Float32" then some .FLOAT32
  else if s = "Float64" then some .FLOAT64
  else if s = "Int16" then some .INT16
  else if s = "Int32" then some .INT32
  else if s = "Digital" then some .DIGITAL
  else if s = "Timestamp" then some .TIMESTAMP
  else if s = "String" then some .STRING
  else if s = "Blob" then some .BLOB
  else Option.none

/-- The point-type resolution in `get_point_config` (points.py 197-198):
`str(attrs.get("pointtype", "Float32"))` then
`point_type_map.get(point_type_str, PointType.FLOAT64)`. -/
def pointTypeOf (pointtypeAttr : Option String) : PointType :=
  (point_type_map (pointtypeAttr.getD "Float32")).getD .FLOAT64

/-- The upstream attribute dictionary returned by `point.GetAttributes` in
`get_point_config` (points.py 173-182); absent keys are `none`.  The
stringly-typed `pointtype` attribute is modelled after the `str(...)`
coercion the code applies. -/
structure PointAttrs where
  pointid : Option Int := Option.none
  pointtype : Option String := Option.none
  descriptor : Option String := Option.none
  engunits : Option String := Option.none
  zero : Option ℚ := Option.none
  span : Option ℚ := Option.none
  displaydigits : Option Int := Option.none
  typicalvalue : Option ℚ := Option.none
deriving DecidableEq, Repr

/-- Modelled from the spec: `pipolars.core.types.PointConfig` (the module is
not under src/; the record is pinned by tests/unit/test_types.py).  Required
fields are `name`, `point_id`, `point_type`; every optional field defaults
to `none` (unset) or the empty string, per the spec's data model ("All
optional fields default to None (unset) or empty string, never raise on
absence"). -/
structure PointConfig where
  name : String
  point_id : Int
  point_type : PointType
  description : String := ""
  engineering_units : String := ""
  zero : Option ℚ := Option.none
  span : Option ℚ := Option.none
  display_digits : Option Int := Option.none
  typical_value : Option ℚ := Option.none
  value_high_alarm : Option ℚ := Option.none
  value_low_alarm : Option ℚ := Option.none
  value_high_warning : Option ℚ := Option.none
  value_low_warning : Option ℚ := Option.none
  roc_high_value : Option ℚ := Option.none
  roc_low_value : Option ℚ := Option.none
  interface_id : Option Int := Option.none
  interface_name : String := ""
  scan_time : String := ""
  source_point_id : Option Int := Option.none
  source_point_name : String := ""
  conversion_factor : Option ℚ := Option.none
  device_name : String := ""
  «alias» : String := ""
deriving DecidableEq, Repr

/-- `PIPointExtractor.get_point_config` (points.py 161-210): builds a
`PointConfig` from the upstream attributes with the source's defaults
(`pointid` 0, `zero` 0.0, `span` 100.0, `displaydigits` -5; `typicalvalue`
becomes `None` when absent or falsy). -/
def get_point_config (tag_name : String) (attrs : PointAttrs) : PointConfig :=
  { name := tag_name
    point_id := attrs.pointid.getD 0
    point_type := pointTypeOf attrs.pointtype
    description := attrs.descriptor.getD ""
    engineering_units := attrs.engunits.getD ""
    zero := some (attrs.zero.getD 0)
    span := some (attrs.span.getD 100)
    display_digits := some (attrs.displaydigits.getD (-5))
    typical_value :=
      match attrs.typicalvalue with
      | some q => if q = 0 then Option.none else some q
      | Option.none => Option.none }

/-- Summary aggregate flags (`pipolars.core.types.SummaryType`), pinned by
tests/unit/test_types.py::TestSummaryType. -/
inductive SummaryType where
  | TOTAL
  | AVERAGE
  | MINIMUM
  | MAXIMUM
  | RANGE
  | STD_DEV
  | POPULATION_STD_DEV
  | COUNT
  | PERCENT_GOOD
deriving DecidableEq, Repr

/-- The numeric bit-flag of each summary type. -/
def SummaryType.value : SummaryType → Nat
  | .TOTAL => 1
  | .AVERAGE => 2
  | .MINIMUM => 4
  | .MAXIMUM => 8
  | .RANGE => 16
  | .STD_DEV => 32
  | .POPULATION_STD_DEV => 64
  | .COUNT => 128
  | .PERCENT_GOOD => 8192

/-- The `summary_name_map` dictionary in `PIPointExtractor.summary`
(points.py 448-458). -/
def summary_name_map (v : Nat) : Option String :=
  if v = 1 then some "total"
  else if v = 2 then some "average"
  else if v = 4 then some "minimum"
  else if v = 8 then some "maximum"
  else if v = 16 then some "range"
  else if v = 32 then some "std_dev"
  else if v = 64 then some "pop_std_dev"
  else if v = 128 then some "count"
  else if v = 8192 then some "percent_good"
  else Option.none

/-- `summary_name_map.get(value, str(value))` (points.py 462). -/
def summaryName (v : Nat) : String := (summary_name_map v).getD (toString v)

/-- The flag combination loop in `summary` (points.py 426-431):
`sdk_summary |= AFSummaryTypes(st.value)` over the requested list. -/
def combineSummaryFlags (summary_types : List SummaryType) : Nat :=
  summary_types.foldl (fun acc st => acc ||| st.value) 0

/-- Modelled from the spec: the vendor SDK's `point.Summary` returns one
aggregate entry per requested flag bit ("multiple flags combinable for a
single query, each yielding one named result field"); each entry carries
the flag's numeric value (`summary.SummaryType`) and the aggregate
(`summary.Value.Value`), here given by `aggr`. -/
def upstreamSummary (mask : Nat) (aggr : Nat → ℚ) : List (Nat × ℚ) :=
  ([1, 2, 4, 8, 16, 32, 64, 128, 8192].filter (fun v => mask &&& v != 0)).map
    (fun v => (v, aggr v))

/-- `PIPointExtractor.summary` (points.py 402-465) for a list of flags: the
result dictionary as an ordered association list (Python dicts preserve
insertion order), keyed by `summaryName`. -/
def summary (summary_types : List SummaryType) (aggr : Nat → ℚ) : List (String × ℚ) :=
  (upstreamSummary (combineSummaryFlags summary_types) aggr).map
    (fun p => (summaryName p.1, p.2))

/-- Boundary policy for recorded-value queries
(`pipolars.core.types.BoundaryType`). -/
inductive BoundaryType where
  | INSIDE
  | OUTSIDE
  | INTERPOLATED
deriving DecidableEq, Repr

/-- `RecordedValuesOptions` (points.py 34-41); `max_count = 0` means no
limit. -/
structure RecordedValuesOptions where
  boundary_type : BoundaryType := .INSIDE
  filter_expression : Option String := Option.none
  include_filtered_values : Bool := false
  max_count : Nat := 0
deriving DecidableEq, Repr

/-- Modelled from the spec: the upstream data source behind one PI point —
its stored events in archive order, an interpolation function for edge
values, and the semantics of filter-expression strings. -/
structure DataSource where
  events : List AFValue
  interpAt : Int → AFValue
  evalFilter : String → AFValue → Bool

/-- Whether a stored event lies inside the closed query range. -/
def insideRange (s e : Int) (v : AFValue) : Bool :=
  decide (s ≤ v.timestamp) && decide (v.timestamp ≤ e)

/-- Modelled from the spec: the events the upstream source selects for a
boundary policy — values inside the range; additionally one value outside
each edge (OUTSIDE); or interpolated edge values plus the interior
(INTERPOLATED). -/
def boundaryEvents (ds : DataSource) (s e : Int) : BoundaryType → List AFValue
  | .INSIDE => ds.events.filter (insideRange s e)
  | .OUTSIDE =>
      ((ds.events.filter (fun v => decide (v.timestamp < s))).getLast?).toList
        ++ ds.events.filter (insideRange s e)
        ++ ((ds.events.filter (fun v => decide (e < v.timestamp))).head?).toList
  | .INTERPOLATED =>
      ds.interpAt s
        :: (ds.events.filter
              (fun v => decide (s < v.timestamp) && decide (v.timestamp < e))
            ++ [ds.interpAt e])

/-- Modelled from the spec: application of the optional filter expression;
with `include_filtered_values` the filtered events are kept (the SDK returns
them as placeholder events). -/
def applyFilterExpr (ds : DataSource) (filterExpr : Option String)
    (includeFiltered : Bool) (l : List AFValue) : List AFValue :=
  match filterExpr with
  | Option.none => l
  | some expr => if includeFiltered then l else l.filter (ds.evalFilter expr)

/-- Modelled from the spec: the result-count cap, where 0 means unbounded. -/
def applyMaxCount (maxCount : Nat) (l : List AFValue) : List AFValue :=
  if maxCount = 0 then l else l.take maxCount

/-- Modelled from the spec: `point.RecordedValues(time_range, boundary,
filter_expression, include_filtered_values, max_count)` — stored values in
archive order restricted by the boundary policy, the filter expression and
the count cap. -/
def upstreamRecordedValues (ds : DataSource) (s e : Int) (boundary : BoundaryType)
    (filterExpr : Option String) (includeFiltered : Bool) (maxCount : Nat) :
    List AFValue :=
  applyMaxCount maxCount (applyFilterExpr ds filterExpr includeFiltered
    (boundaryEvents ds s e boundary))

/-- `PIPointExtractor.recorded_values` (points.py 250-290): forwards the
options to the upstream query and converts each raw value. -/
def recorded_values (ds : DataSource) (s e : Int)
    (options : RecordedValuesOptions := {}) : List PIValue :=
  (upstreamRecordedValues ds s e options.boundary_type options.filter_expression
      options.include_filtered_values options.max_count).map convertValue

/-- Modelled from the spec: `point.RecordedValues` with a
`PIPagingConfiguration(EventCount, page_size)` delivers the same events as
the unpaged unbounded query, in forward-only pages of `page_size` events
(the 0 case is a guard; the code's default page size is 10000). -/
def chunkPages {α : Type} : Nat → List α → List (List α)
  | _, [] => []
  | 0, xs => [xs]
  | n + 1, x :: xs => (x :: xs.take n) :: chunkPages (n + 1) (xs.drop n)
termination_by _ xs => xs.length
decreasing_by
  simp [List.length_drop]
  omega

/-- `PIPointExtractor.recorded_values_iterator` (points.py 292-334): pages
through the upstream query with `AFBoundaryType.Inside`, no filter
expression, filtered values excluded and no count cap, converting each
value as it is yielded. -/
def recorded_values_iterator (ds : DataSource) (s e : Int)
    (pageSize : Nat := 10000) : List PIValue :=
  ((chunkPages pageSize
      (upstreamRecordedValues ds s e .INSIDE Option.none false 0)).flatten).map
    convertValue

/-- Outcome of extracting one PI point in `extract_pi_points`
(examples/extract_pipoints.py 142-233): either the detailed `point_info`
dictionary is built (`ok`, payload abstracted to its serialized form), or
the extraction raised (`fail`), in which case the basic-info fallback
either succeeds with a name and error message (`some`) or raises as well
(`none`). -/
inductive PointOutcome where
  | ok (info : String)
  | fail (basic : Option (String × String))
deriving DecidableEq, Repr

/-- An entry of the `points_list` result: a full record or an error
marker. -/
inductive PointEntry where
  | info (i : String)
  | errorMarker (name err : String)
deriving DecidableEq, Repr

/-- The per-point body of the loop in `extract_pi_points`: a success
appends the record, a caught failure appends the error marker when the
fallback succeeds, and is silently skipped (`pass`) when even the fallback
raises. -/
def pointEntries : PointOutcome → List PointEntry
  | .ok i => [.info i]
  | .fail (some (n, e)) => [.errorMarker n e]
  | .fail Option.none => []

/-- The extraction loop of `extract_pi_points` over all found points
(examples/extract_pipoints.py 142-233). -/
def processPoints (points : List PointOutcome) : List PointEntry :=
  points.flatMap pointEntries

/-- `extract_pi_points` (examples/extract_pipoints.py 61-236): a failure to
establish the server connection propagates and aborts the whole operation;
otherwise every point is processed by the guarded loop. -/
def extract_pi_points (conn : Except String (List PointOutcome)) :
    Except String (List PointEntry) :=
  match conn with
  | .error e => .error e
  | .ok points => .ok (processPoints points)

/-- The inner loop of `extract_analyses_from_all_databases`
(examples/extract_analyses.py 115-120): a per-analysis failure is caught,
logged and skipped. -/
def processAnalyses (items : List (Except String String)) : List String :=
  items.flatMap
    (fun a =>
      match a with
      | .ok i => [i]
      | .error _ => [])

/-- The per-database loop of `extract_analyses_from_all_databases`
(examples/extract_analyses.py 105-124): a failure to access one database is
caught, logged and skipped; otherwise its analyses are processed by the
guarded inner loop. -/
def processDatabases (dbs : List (Except String (List (Except String String)))) :
    List String :=
  dbs.flatMap
    (fun db =>
      match db with
      | .ok items => processAnalyses items
      | .error _ => [])

/-- `extract_analyses_from_all_databases` (examples/extract_analyses.py
73-134): a failure to connect to the AF server propagates and aborts the
whole operation; otherwise all databases are processed by the guarded
loops. -/
def extract_analyses_from_all_databases
    (conn : Except String (List (Except String (List (Except String String))))) :
    Except String (List String) :=
  match conn with
  | .error e => .error e
  | .ok dbs => .ok (processDatabases dbs)

/-- Modelled from the spec: `pipolars.core.config.PIServerConfig` (module
not under src/, pinned by test_default_server.py): the host defaults to
"localhost". -/
structure PIServerConfig where
  host : String := "localhost"
deriving DecidableEq, Repr

/-- Modelled from the spec: `pipolars.core.config.PIConfig` — the full
configuration object wrapping a server configuration. -/
structure PIConfig where
  server : PIServerConfig := {}
deriving DecidableEq, Repr

/-- Whether a server-name string is blank: empty or whitespace-only
(Python `not server.strip()`). -/
def isBlank (s : String) : Bool := s.toList.all Char.isWhitespace

/-- Modelled from the spec: the server-name resolution of
`pipolars.api.client.PIClient.__init__` (module not under src/, pinned by
tests/unit/test_client.py and test_default_server.py): an explicit full
configuration object takes precedence over a separately given server name;
otherwise a `None`/omitted, empty or whitespace-only server name resolves
to "localhost" and a non-blank name is used verbatim. -/
def resolveServerHost (server : Option String) (config : Option PIConfig) : String :=
  match config with
  | some c => c.server.host
  | Option.none =>
    match server with
    | Option.none => "localhost"
    | some s => if isBlank s then "localhost" else s

/-- Status of a computed analysis (`pipolars.core.types.AnalysisStatus`),
string-valued. -/
inductive AnalysisStatus where
  | RUNNING
  | STOPPED
  | ERROR
  | UNKNOWN
deriving DecidableEq, Repr

/-- The string value of each analysis status. -/
def AnalysisStatus.value : AnalysisStatus → String
  | .RUNNING => "Running"
  | .STOPPED => "Stopped"
  | .ERROR => "Error"
  | .UNKNOWN => "Unknown"

/-- Modelled from the spec: `pipolars.core.types.AnalysisInfo` (module not
under src/, pinned by tests/unit/test_types.py): optional scalar fields
default to the empty string or `none`, collection fields to the empty
tuple. -/
structure AnalysisInfo where
  name : String
  id : String
  path : String
  description : String := ""
  target_id : String := ""
  target_name : String := ""
  target_path : String := ""
  template_id : String := ""
  template_name : String := ""
  template_description : String := ""
  status : AnalysisStatus := .UNKNOWN
  is_enabled : Bool := false
  categories : List String := []
  time_rule_plugin_id : String := ""
  time_rule_config_string : String := ""
  analysis_rule_max_queue_size : Option Nat := Option.none
  group_id : String := ""
  priority : Option Nat := Option.none
  maximum_queue_time : String := ""
  auto_created_event_frame_count : Option Nat := Option.none
  output_attributes : List String := []
deriving DecidableEq, Repr

/-- Modelled from the spec: Python attribute assignment on a dataclass —
on a frozen dataclass it raises `FrozenInstanceError` and leaves the record
unchanged (no updated record is ever produced); on a non-frozen one it
returns the updated record. -/
def dataclassSetAttr (frozen : Bool) (info : AnalysisInfo)
    (update : AnalysisInfo → AnalysisInfo) : Except String AnalysisInfo :=
  if frozen then .error "FrozenInstanceError" else .ok (update info)

/-- `AnalysisInfo` is declared as a frozen dataclass
(tests/unit/test_types.py::test_frozen_dataclass). -/
def analysisInfoFrozen : Bool := true

/-- Attribute assignment on an `AnalysisInfo` instance. -/
def AnalysisInfo.setAttr (info : AnalysisInfo)
    (update : AnalysisInfo → AnalysisInfo) : Except String AnalysisInfo :=
  dataclassSetAttr analysisInfoFrozen info update

/-- A raw upstream value whose payload is plain Python `None`: it has
neither a `Name` nor a `ToString` attribute, so `_convert_value` leaves it
untouched, while the spec's rule would coerce (failing) and fall back to
the string representation `"None"`. -/
def plainNoneAF : AFValue :=
  { timestamp := 0
    value := .plain .none
    isGood := some true
    hasSubstituted := false
    substituted := false }

/-- A digital-state sample used to instantiate the amended conversion
theorem. -/
def digitalAF : AFValue :=
  { timestamp := 5
    value := .digital "ON"
    isGood := some true
    hasSubstituted := true
    substituted := false }

/-- A sample flagged both not-good and substituted upstream. -/
def badSubAF : AFValue :=
  { timestamp := 3
    value := .plain (.float 1)
    isGood := some false
    hasSubstituted := true
    substituted := true }

/-- A good stored event at a given instant, used as witness data. -/
def sampleAF (t : Int) : AFValue :=
  { timestamp := t
    value := .plain (.float 1)
    isGood := some true
    hasSubstituted := false
    substituted := false }

/-- A small concrete data source with three strictly ascending stored
events. -/
def sampleSource : DataSource :=
  { events := [sampleAF 1, sampleAF 2, sampleAF 3]
    interpAt := fun t => sampleAF t
    evalFilter := fun _ _ => true }

/-- A `PointConfig` constructed with only the required fields. -/
def minimalPointConfig (n : String) (pid : Int) (pt : PointType) : PointConfig :=
  { name := n, point_id := pid, point_type := pt }

/-- An attribute dictionary whose `pointtype` is present but not a
recognized point-type string. -/
def weirdAttrs : PointAttrs := { pointtype := some "Weird" }

end Pipolars

namespace Pipolars

/-- Claim C1 (counterexample): the code does not attempt numeric coercion on
a plain interop value lacking both `Name` and `ToString`.  On a raw value
whose payload is Python `None`, the spec's rule yields the string `"None"`
while `_convert_value` returns `None` unchanged. -/
theorem convert_value_claim_cex :
    claimConvertRawVal plainNoneAF.value = .str "None"
    ∧ (convertValue plainNoneAF).value = .none
    ∧ (convertValue plainNoneAF).value ≠ claimConvertRawVal plainNoneAF.value := by
  refine ⟨rfl, rfl, ?_⟩
  decide

/-- Claim C1 (amended): for every raw upstream value converted by
`_convert_value`: a value carrying a symbolic/digital state becomes the
state's name as a string; a wrapped .NET object (exposing `ToString`) is
coerced to float when possible, falling back to its `ToString` string
representation; a plain value with neither attribute passes through
unchanged; the timestamp is preserved; and the result quality is GOOD
unless the value is explicitly flagged bad (BAD) or substituted
(SUBSTITUTED) upstream. -/
theorem convert_value_amended (av : AFValue) :
    (convertValue av).timestamp = av.timestamp
    ∧ (∀ n, av.value = .digital n → (convertValue av).value = .str n)
    ∧ (∀ f s, av.value = .net f s →
        (convertValue av).value =
          (match f with
           | some q => PyVal.float q
           | Option.none => PyVal.str s))
    ∧ (∀ v, av.value = .plain v → (convertValue av).value = v)
    ∧ ((convertValue av).quality = .BAD ↔ av.isGood = some false)
    ∧ ((convertValue av).quality = .SUBSTITUTED ↔
        (av.isGood ≠ some false ∧ av.hasSubstituted = true ∧ av.substituted = true))
    ∧ ((convertValue av).quality = .GOOD ↔
        (av.isGood ≠ some false ∧ ¬(av.hasSubstituted = true ∧ av.substituted = true))) := by
  obtain ⟨t, r, g, hs, sb⟩ := av
  refine ⟨rfl, ?_, ?_, ?_, ?_, ?_, ?_⟩
  · rintro n rfl; rfl
  · rintro f s rfl; cases f <;> rfl
  · rintro v rfl; rfl
  · by_cases hg : g = some false <;>
      cases hs <;> cases sb <;> simp [convertValue, convertQuality, hg]
  · by_cases hg : g = some false <;>
      cases hs <;> cases sb <;> simp [convertValue, convertQuality, hg]
  · by_cases hg : g = some false <;>
      cases hs <;> cases sb <;> simp [convertValue, convertQuality, hg]

/-- Witness for the amended C1 theorem at a concrete digital-state input. -/
theorem convert_value_amended_witness :
    (convertValue digitalAF).value = PyVal.str "ON"
    ∧ (convertValue digitalAF).quality = DataQuality.GOOD :=
  ⟨(convert_value_amended digitalAF).2.1 "ON" rfl,
   ((convert_value_amended digitalAF).2.2.2.2.2.2).mpr (by decide)⟩

/-- Claim C9: in `_convert_value` the BAD quality takes precedence over
SUBSTITUTED: whenever `IsGood is False` the result quality is BAD (even if
also flagged substituted), and a result quality of SUBSTITUTED implies the
value was not flagged bad — a value is never reported SUBSTITUTED and
not-good at the same time. -/
theorem convert_value_bad_precedence (av : AFValue) :
    (av.isGood = some false → (convertValue av).quality = .BAD)
    ∧ ((convertValue av).quality = .SUBSTITUTED → av.isGood ≠ some false) := by
  constructor
  · intro h
    simp [convertValue, convertQuality, h]
  · intro h
    intro hg
    simp [convertValue, convertQuality, hg] at h

/-- Witness for C9: a sample flagged both bad and substituted converts with
quality BAD. -/
theorem convert_value_bad_precedence_witness :
    (convertValue badSubAF).quality = DataQuality.BAD :=
  (convert_value_bad_precedence badSubAF).1 rfl

/-- Claim C2: `summary` called with exactly the flags {AVERAGE, MINIMUM,
MAXIMUM, COUNT} returns a mapping whose keys are exactly "average",
"minimum", "maximum", "count" (in insertion order, no other keys), and the
flag-to-name correspondence is TOTAL=1→total, AVERAGE=2→average,
MINIMUM=4→minimum, MAXIMUM=8→maximum, RANGE=16→range, STD_DEV=32→std_dev,
POPULATION_STD_DEV=64→pop_std_dev, COUNT=128→count,
PERCENT_GOOD=8192→percent_good. -/
theorem summary_four_flags_keys :
    (∀ aggr : Nat → ℚ,
      (summary [SummaryType.AVERAGE, SummaryType.MINIMUM, SummaryType.MAXIMUM,
          SummaryType.COUNT] aggr).map Prod.fst
        = ["average", "minimum", "maximum", "count"])
    ∧ (SummaryType.TOTAL.value = 1 ∧ summaryName 1 = "total")
    ∧ (SummaryType.AVERAGE.value = 2 ∧ summaryName 2 = "average")
    ∧ (SummaryType.MINIMUM.value = 4 ∧ summaryName 4 = "minimum")
    ∧ (SummaryType.MAXIMUM.value = 8 ∧ summaryName 8 = "maximum")
    ∧ (SummaryType.RANGE.value = 16 ∧ summaryName 16 = "range")
    ∧ (SummaryType.STD_DEV.value = 32 ∧ summaryName 32 = "std_dev")
    ∧ (SummaryType.POPULATION_STD_DEV.value = 64 ∧ summaryName 64 = "pop_std_dev")
    ∧ (SummaryType.COUNT.value = 128 ∧ summaryName 128 = "count")
    ∧ (SummaryType.PERCENT_GOOD.value = 8192 ∧ summaryName 8192 = "percent_good") :=
  ⟨fun _ => rfl, ⟨rfl, rfl⟩, ⟨rfl, rfl⟩, ⟨rfl, rfl⟩, ⟨rfl, rfl⟩, ⟨rfl, rfl⟩,
   ⟨rfl, rfl⟩, ⟨rfl, rfl⟩, ⟨rfl, rfl⟩, ⟨rfl, rfl⟩⟩

lemma applyFilterExpr_sublist (ds : DataSource) (fe : Option String) (inc : Bool)
    (l : List AFValue) : List.Sublist (applyFilterExpr ds fe inc l) l := by
  cases fe with
  | none => exact List.Sublist.refl l
  | some expr =>
      cases inc with
      | true => exact List.Sublist.refl l
      | false => exact List.filter_sublist l

lemma applyMaxCount_sublist (mc : Nat) (l : List AFValue) :
    List.Sublist (applyMaxCount mc l) l := by
  unfold applyMaxCount
  by_cases h : mc = 0
  · rw [if_pos h]
  · rw [if_neg h]
    exact List.take_sublist mc l

lemma upstreamRecordedValues_inside_sublist (ds : DataSource) (s e : Int)
    (fe : Option String) (inc : Bool) (mc : Nat) :
    List.Sublist (upstreamRecordedValues ds s e .INSIDE fe inc mc) ds.events :=
  (applyMaxCount_sublist mc _).trans
    ((applyFilterExpr_sublist ds fe inc _).trans (List.filter_sublist ds.events))

/-- Claim C3: when the stored events are in strictly ascending timestamp
order, `recorded_values` in inside-boundary mode returns them in strictly
ascending timestamp order with no duplicate timestamps, for every filter
expression and count cap; and `max_count = 0` means unbounded — it returns
the same result as any cap large enough to cover the whole archive. -/
theorem recorded_values_inside_sorted (ds : DataSource)
    (hsorted : ds.events.Pairwise (fun a b => a.timestamp < b.timestamp))
    (s e : Int) (fe : Option String) (inc : Bool) (mc : Nat) :
    ((recorded_values ds s e ⟨.INSIDE, fe, inc, mc⟩).map PIValue.timestamp).Pairwise
        (· < ·)
    ∧ ((recorded_values ds s e ⟨.INSIDE, fe, inc, mc⟩).map PIValue.timestamp).Nodup
    ∧ (∀ cap : Nat, ds.events.length ≤ cap →
        recorded_values ds s e ⟨.INSIDE, fe, inc, 0⟩
          = recorded_values ds s e ⟨.INSIDE, fe, inc, cap⟩) := by
  have hpw :
      (upstreamRecordedValues ds s e .INSIDE fe inc mc).Pairwise
        (fun a b => a.timestamp < b.timestamp) :=
    hsorted.sublist (upstreamRecordedValues_inside_sublist ds s e fe inc mc)
  have hts :
      ((recorded_values ds s e ⟨.INSIDE, fe, inc, mc⟩).map PIValue.timestamp).Pairwise
        (· < ·) := by
    unfold recorded_values
    rw [List.map_map]
    exact List.pairwise_map.mpr hpw
  refine ⟨hts, hts.imp (fun h => ne_of_lt h), ?_⟩
  intro cap hcap
  by_cases hc : cap = 0
  · rw [hc]
  · have hlen :
        (applyFilterExpr ds fe inc (boundaryEvents ds s e .INSIDE)).length ≤ cap :=
      le_trans
        ((applyFilterExpr_sublist ds fe inc
            (boundaryEvents ds s e .INSIDE)).length_le.trans
          (List.filter_sublist ds.events).length_le)
        hcap
    unfold recorded_values
    congr 1
    unfold upstreamRecordedValues applyMaxCount
    rw [if_pos rfl, if_neg hc]
    exact (List.take_of_length_le hlen).symm

/-- Witness for C3 on a concrete three-event archive. -/
theorem recorded_values_inside_sorted_witness :
    ((recorded_values sampleSource 0 10
        ⟨.INSIDE, Option.none, false, 0⟩).map PIValue.timestamp).Pairwise (· < ·)
    ∧ recorded_values sampleSource 0 10 ⟨.INSIDE, Option.none, false, 0⟩
        = recorded_values sampleSource 0 10 ⟨.INSIDE, Option.none, false, 5⟩ :=
  ⟨(recorded_values_inside_sorted sampleSource (by decide) 0 10
      Option.none false 0).1,
   (recorded_values_inside_sorted sampleSource (by decide) 0 10
      Option.none false 0).2.2 5 (by decide)⟩

lemma chunkPages_flatten {α : Type} (n : Nat) (xs : List α) :
    (chunkPages n xs).flatten = xs := by
  induction n, xs using chunkPages.induct with
  | case1 n => simp [chunkPages]
  | case2 xs => simp [chunkPages]
  | case3 n x xs ih =>
      simp [chunkPages, ih, List.take_append_drop]

/-- Claim C7: paginated retrieval (`recorded_values_iterator`) yields, for
every series, range and page size, exactly the same ordered sequence of
converted values as `recorded_values` with default options (inside
boundary, no filter expression, filtered values excluded, unbounded
count). -/
theorem recorded_values_iterator_eq (ds : DataSource) (s e : Int) (pageSize : Nat) :
    recorded_values_iterator ds s e pageSize = recorded_values ds s e {} := by
  unfold recorded_values_iterator recorded_values
  rw [chunkPages_flatten]

/-- Claim C4: in both batch extraction scripts a per-item failure is caught
and either excluded or recorded with an error marker while the batch
continues with the remaining items, and only a connection-establishment
failure aborts the whole operation. -/
theorem batch_extraction_continues :
    (∀ (pre post : List PointOutcome) (b : Option (String × String)),
        processPoints (pre ++ PointOutcome.fail b :: post)
          = processPoints pre ++ pointEntries (PointOutcome.fail b)
              ++ processPoints post)
    ∧ (∀ e, extract_pi_points (.error e) = .error e)
    ∧ (∀ points, extract_pi_points (.ok points) = .ok (processPoints points))
    ∧ (∀ (pre post : List (Except String (List (Except String String))))
          (msg : String),
        processDatabases (pre ++ Except.error msg :: post)
          = processDatabases pre ++ processDatabases post)
    ∧ (∀ (pre post : List (Except String String)) (msg : String),
        processAnalyses (pre ++ Except.error msg :: post)
          = processAnalyses pre ++ processAnalyses post)
    ∧ (∀ e, extract_analyses_from_all_databases (.error e) = .error e) := by
  refine ⟨?_, fun _ => rfl, fun _ => rfl, ?_, ?_, fun _ => rfl⟩
  · intro pre post b
    simp [processPoints, List.flatMap_append, List.flatMap_cons, List.append_assoc]
  · intro pre post msg
    simp [processDatabases, List.flatMap_append, List.flatMap_cons]
  · intro pre post msg
    simp [processAnalyses, List.flatMap_append, List.flatMap_cons]

/-- Claim C5: client construction resolves the server name as the tests
pin it: empty, whitespace-only, `None` and omitted all resolve to
"localhost"; a non-blank name is used verbatim; a supplied full
configuration object takes precedence over a separately given server
name. -/
theorem client_server_defaulting :
    resolveServerHost (some "") Option.none = "localhost"
    ∧ resolveServerHost (some "   ") Option.none = "localhost"
    ∧ resolveServerHost Option.none Option.none = "localhost"
    ∧ (∀ s : String, isBlank s = false → resolveServerHost (some s) Option.none = s)
    ∧ (∀ (s : Option String) (c : PIConfig),
        resolveServerHost s (some c) = c.server.host) := by
  refine ⟨rfl, rfl, rfl, ?_, fun _ _ => rfl⟩
  intro s h
  show (if isBlank s = true then "localhost" else s) = s
  rw [h]
  rfl

/-- Witness for C5: a non-blank server name is used verbatim. -/
theorem client_server_defaulting_witness :
    resolveServerHost (some "my-pi-server") Option.none = "my-pi-server" :=
  client_server_defaulting.2.2.2.1 "my-pi-server" (by rfl)

/-- Claim C6: every `AnalysisInfo` record is immutable after construction:
any post-construction attribute assignment fails with
`FrozenInstanceError`, and no updated record is ever produced. -/
theorem analysis_info_immutable (info : AnalysisInfo)
    (update : AnalysisInfo → AnalysisInfo) :
    info.setAttr update = .error "FrozenInstanceError" := rfl

/-- Claim C8: a `PointConfig` constructed with only the required fields
(`name`, `point_id`, `point_type`) always succeeds and every optional field
of the claim takes its documented default: `none` for the optional numeric
fields and the empty string for the optional string fields. -/
theorem point_config_defaults (n : String) (pid : Int) (pt : PointType) :
    (minimalPointConfig n pid pt).value_high_alarm = Option.none
    ∧ (minimalPointConfig n pid pt).value_low_alarm = Option.none
    ∧ (minimalPointConfig n pid pt).value_high_warning = Option.none
    ∧ (minimalPointConfig n pid pt).value_low_warning = Option.none
    ∧ (minimalPointConfig n pid pt).roc_high_value = Option.none
    ∧ (minimalPointConfig n pid pt).roc_low_value = Option.none
    ∧ (minimalPointConfig n pid pt).interface_id = Option.none
    ∧ (minimalPointConfig n pid pt).source_point_id = Option.none
    ∧ (minimalPointConfig n pid pt).conversion_factor = Option.none
    ∧ (minimalPointConfig n pid pt).interface_name = ""
    ∧ (minimalPointConfig n pid pt).scan_time = ""
    ∧ (minimalPointConfig n pid pt).source_point_name = ""
    ∧ (minimalPointConfig n pid pt).device_name = ""
    ∧ (minimalPointConfig n pid pt).«alias» = ""
    ∧ (minimalPointConfig n pid pt).name = n
    ∧ (minimalPointConfig n pid pt).point_id = pid
    ∧ (minimalPointConfig n pid pt).point_type = pt :=
  ⟨rfl, rfl, rfl, rfl, rfl, rfl, rfl, rfl, rfl, rfl, rfl, rfl, rfl, rfl, rfl,
   rfl, rfl⟩

/-- Claim C10: `get_point_config` always yields a `PointType` enum member,
with an asymmetric fallback: an absent `pointtype` attribute defaults to
FLOAT32 (via the default string "Float32"), while a present but
unrecognized point-type string maps to FLOAT64; a recognized string maps to
its enum member. -/
theorem get_point_config_point_type (tag : String) (attrs : PointAttrs) :
    (attrs.pointtype = Option.none →
      (get_point_config tag attrs).point_type = PointType.FLOAT32)
    ∧ (∀ s, attrs.pointtype = some s → point_type_map s = Option.none →
        (get_point_config tag attrs).point_type = PointType.FLOAT64)
    ∧ (∀ s pt, attrs.pointtype = some s → point_type_map s = some pt →
        (get_point_config tag attrs).point_type = pt) := by
  have hpt : (get_point_config tag attrs).point_type = pointTypeOf attrs.pointtype :=
    rfl
  refine ⟨?_, ?_, ?_⟩
  · intro h
    rw [hpt, h]
    rfl
  · intro s hs hmap
    rw [hpt, hs]
    unfold pointTypeOf
    rw [Option.getD_some, hmap]
    rfl
  · intro s pt hs hmap
    rw [hpt, hs]
    unfold pointTypeOf
    rw [Option.getD_some, hmap]
    rfl

/-- Witness for C10: a present but unrecognized point-type string maps to
FLOAT64. -/
theorem get_point_config_point_type_witness :
    (get_point_config "T" weirdAttrs).point_type = PointType.FLOAT64 :=
  (get_point_config_point_type "T" weirdAttrs).2.1 "Weird" rfl rfl

end Pipolars
